import Mathlib

/-!
# Verification of the astroid process-entry orchestration layer

Shallow embedding of `src/astroid.cc` (the single source file of the
repository): the single-instance activation coordinator, the mailto URL
decoder, the subsystem bootstrapper and the window/mode orchestrator.

Strings are embedded as `List Char`.  The external collaborators
(GLib/GTKmm, the configuration store, the concrete mode views) are
modelled at their documented interfaces only, as the spec prescribes.
-/

namespace AstroidModel

/-! ## GLib URI scheme parsing

`Glib::uri_parse_scheme` wraps `g_uri_parse_scheme`, whose documented
behaviour (GLib reference, RFC 3986) is: the scheme is a leading run
`ALPHA *( ALPHA / DIGIT / "+" / "-" / "." )` that must be terminated by
`':'`; the returned scheme is lowercased and does NOT include the
terminating `':'`.  On any other input the function returns NULL, which
glibmm converts to the empty `ustring`. -/

/-- Is `c` a valid non-initial scheme character (`g_ascii_isalnum (c) ||
c == '+' || c == '-' || c == '.'`)?  `Char.isAlphanum` is ASCII-only,
matching `g_ascii_isalnum`. -/
def scheme_tail_char (c : Char) : Bool :=
  c.isAlphanum || c = '+' || c = '-' || c = '.'

/-- Scan for the terminating `':'`: returns the number of characters
before the first `':'`, or `none` if an invalid character (or the end of
the string) is reached first. -/
def scheme_scan : List Char → Nat → Option Nat
  | [], _ => none
  | c :: rest, n =>
      if c = ':' then some n
      else if scheme_tail_char c then scheme_scan rest (n + 1)
      else none

/-- `Glib::uri_parse_scheme`: the lowercased scheme of `url` without the
trailing `':'`, or `[]` (empty ustring) when `url` has no valid scheme. -/
def uri_parse_scheme (url : List Char) : List Char :=
  match url with
  | [] => []
  | c :: rest =>
      if c.isAlpha then
        match scheme_scan rest 1 with
        | some n => (url.take n).map Char.toLower
        | none => []
      else []

/-! ## Modes and main windows

`MainWindow`, `SavedSearches`, `ThreadIndex` and `EditMessage` are
external collaborators; this core only creates windows, appends modes
(`add_mode`), sets the `invincible` flag and activates a mode index
(`set_active`).  A window is embedded as its ordered mode list plus the
activated index. -/

/-- The three mode views this core instantiates. -/
inductive ModeKind where
  | SavedSearchesMode : ModeKind
  | ThreadIndexMode (query : List Char) (name : List Char) : ModeKind
  | EditMessageMode (recipient : List Char) : ModeKind
deriving DecidableEq, Repr

/-- A mode together with its `invincible` flag (false on construction,
set to true explicitly by `open_new_window` for startup modes). -/
structure Mode where
  kind : ModeKind
  invincible : Bool
deriving DecidableEq, Repr

/-- A top-level window: ordered mode sequence plus activated index. -/
structure MainWindow where
  modes : List Mode
  active : Option Nat
deriving DecidableEq, Repr

/-- `mw->add_mode (m)`: appends a mode to the window's mode sequence. -/
def add_mode (mw : MainWindow) (m : Mode) : MainWindow :=
  ⟨mw.modes ++ [m], mw.active⟩

/-- `mw->set_active (i)`. -/
def set_active (mw : MainWindow) (i : Nat) : MainWindow :=
  ⟨mw.modes, some i⟩

/-! ## Configuration contents

The configuration store is an external collaborator; the two values this
core reads are `saved_searches.show_on_startup` and the ordered
`startup.queries` subtree (pairs of name and query, in declared order). -/

/-- The configuration values read by `open_new_window`. -/
structure AstroidConfig where
  saved_searches_show_on_startup : Bool
  startup_queries : List (List Char × List Char)
deriving DecidableEq, Repr

/-! ## `Astroid::send_mailto` (src/astroid.cc lines 411-433) -/

/-- `url.find ("?")`, with `npos` replaced by `url.length ()` as in
line 423 of the source. -/
def find_question (url : List Char) : Nat :=
  match url.findIdx? (fun c => c = '?') with
  | some pos => pos
  | none => url.length

/-- The recipient-extraction step of `Astroid::send_mailto`
(lines 414-424, 431): if `uri_parse_scheme` finds a scheme, drop
`scheme.length ()` characters (`url.substr (scheme.length (), ...)`)
and keep everything before the first `'?'`; otherwise the whole string
is the recipient. -/
def send_mailto_to (url : List Char) : List Char :=
  let scheme := uri_parse_scheme url
  if scheme.length > 0 then
    let url2 := url.drop scheme.length
    url2.take (find_question url2)
  else url

/-- `Astroid::send_mailto` (lines 411-433): adds one `EditMessage` mode,
addressed to the extracted recipient, to the given window. -/
def send_mailto (mw : MainWindow) (url : List Char) : MainWindow :=
  let scheme := uri_parse_scheme url
  if scheme.length > 0 then
    let url2 := url.drop scheme.length
    let t := url2.take (find_question url2)
    add_mode mw ⟨ModeKind.EditMessageMode t, false⟩
  else
    add_mode mw ⟨ModeKind.EditMessageMode url, false⟩

/-! ## `Astroid::open_new_window` (lines 360-394) -/

/-- `Astroid::open_new_window (open_defaults)`: creates a window; when
`open_defaults` holds, optionally adds an invincible saved-search mode,
then one invincible thread-index mode per startup query in declared
order, then calls `set_active (0)`. -/
def open_new_window (cfg : AstroidConfig) (open_defaults : Bool) : MainWindow :=
  let mw : MainWindow := ⟨[], none⟩
  if open_defaults then
    let mw1 :=
      if cfg.saved_searches_show_on_startup then
        add_mode mw ⟨ModeKind.SavedSearchesMode, true⟩
      else mw
    let mw2 := cfg.startup_queries.foldl
      (fun w kv => add_mode w ⟨ModeKind.ThreadIndexMode kv.2 kv.1, true⟩) mw1
    set_active mw2 0
  else mw

/-- `Astroid::on_mailto_activate` (lines 405-409): opens a window with
no defaults and sends the (still raw) payload to `send_mailto`. -/
def on_mailto_activate (cfg : AstroidConfig) (param : List Char) : MainWindow :=
  send_mailto (open_new_window cfg false) param

/-! ## Subsystems (lines 249-271 and 329-346) -/

/-- The named global subsystems set up by `Astroid::main`. -/
inductive Subsystem where
  | date | utils | db | keybindings | saved_searches
  | accounts | plugins | actions | poll
deriving DecidableEq, Repr

/-- Initialization order of `Astroid::main` lines 249-271:
`Date::init`, `Utils::init`, `Db::init`, `Keybindings::init`,
`SavedSearches::init`, `new AccountManager`, `new PluginManager`,
`new ActionManager`, `new Poll`. -/
def main_init_order : List Subsystem :=
  [Subsystem.date, Subsystem.utils, Subsystem.db, Subsystem.keybindings,
   Subsystem.saved_searches, Subsystem.accounts, Subsystem.plugins,
   Subsystem.actions, Subsystem.poll]

/-- Teardown order of `Astroid::on_quit` lines 329-346:
`actions->close ()`, then `SavedSearches::destruct ()`, then
`delete plugin_manager`. -/
def on_quit_teardown_order : List Subsystem :=
  [Subsystem.actions, Subsystem.saved_searches, Subsystem.plugins]

/-- Subsystems with an explicit teardown step in `on_quit`. -/
def has_explicit_teardown : Subsystem → Bool
  | Subsystem.actions => true
  | Subsystem.saved_searches => true
  | Subsystem.plugins => true
  | _ => false

/-! ## `Astroid::main` (lines 70-284)

The whole entry point is embedded as a function from the parsed command
line (`Invocation`) and the process environment (`Env`) to an exit
outcome plus the ordered trace of observable effects (`Event`). -/

/-- The parsed command line of one invocation (lines 74-103).
`unknown_option` records that `po::parse_command_line` threw
`po::unknown_option` (caught at line 96, which sets `show_help`). -/
structure Invocation where
  help : Bool
  unknown_option : Bool
  config : Option (List Char)
  new_config : Bool
  test_config : Bool
  mailto : Option (List Char)
  no_auto_poll : Bool
  log_file : Option (List Char)
  append_log : Bool
  disable_plugins : Bool

/-- The process environment an invocation runs against: whether another
instance already owns the application identity (`app->is_remote ()`),
whether `app->register_application ()` fails, whether the `--new-config`
target file exists, whether the log file can be opened, how many
self-activation events the registration step emits during `app->run ()`,
and the loaded configuration contents. -/
structure Env where
  is_remote : Bool
  registration_fails : Bool
  config_file_exists : Bool
  default_config_exists : Bool
  log_open_ok : Bool
  self_activations : Nat
  cfg : AstroidConfig

/-- Observable effects of `Astroid::main`, in program order. -/
inductive Event where
  | printed_help : Event
  | log_setup : Event
  | wrote_config : Event
  | registered_app : Event
  | forwarded_action (name : List Char) (payload : List Char) : Event
  | forwarded_activate : Event
  | config_loaded : Event
  | subsystem_init (s : Subsystem) : Event
  | window_opened (w : MainWindow) : Event
  | subsystem_teardown (s : Subsystem) : Event
  | reported_error : Event
deriving DecidableEq, Repr

/-- How `Astroid::main` terminates: `exit c` covers both `exit (c)` and
`return c`; `uncaught_error` is an exception (the `Glib::Error` thrown
by `register_application` on failure) leaving `Astroid::main`, which
performs no error handling around the registration call. -/
inductive Outcome where
  | exit (code : Nat) : Outcome
  | uncaught_error : Outcome
deriving DecidableEq, Repr

/-- Log-sink setup (lines 113-127): a file sink is added only when
`--log` is given and the file opens; failure to open is non-fatal. -/
def log_events (inv : Invocation) (env : Env) : List Event :=
  match inv.log_file with
  | some _ => if env.log_open_ok then [Event.log_setup] else []
  | none => []

/-- The `--new-config` branch (lines 129-163): fatal with
`--test-config`; fatal when the target file (the `--config` path, or
the default path) already exists; otherwise writes the default config
and exits 0. -/
def new_config_run (inv : Invocation) (env : Env) : Outcome × List Event :=
  if inv.test_config then
    (Outcome.exit 1, log_events inv env)
  else
    match inv.config with
    | some _ =>
        if env.config_file_exists then (Outcome.exit 1, log_events inv env)
        else (Outcome.exit 0, log_events inv env ++ [Event.wrote_config])
    | none =>
        if env.default_config_exists then (Outcome.exit 1, log_events inv env)
        else (Outcome.exit 0, log_events inv env ++ [Event.wrote_config])

/-- The name of the cross-process action (lines 203 and 218). -/
def action_mailto : List Char := "mailto".toList

/-- The secondary path (lines 194-212): with `--mailto` the raw URL is
forwarded as the single string payload of the named "mailto" action;
otherwise a plain `activate` is forwarded; the process returns 0. -/
def remote_run (inv : Invocation) (env : Env) : Outcome × List Event :=
  match inv.mailto with
  | some url =>
      (Outcome.exit 0,
        log_events inv env ++ [Event.registered_app,
          Event.forwarded_action action_mailto url])
  | none =>
      (Outcome.exit 0,
        log_events inv env ++ [Event.registered_app, Event.forwarded_activate])

/-- One step of `Astroid::on_signal_activate` (lines 396-403) on the
`activated` flag: the first self-activation is swallowed (the flag is
set); every later activation opens a new default window. -/
def run_activations (cfg : AstroidConfig) : Nat → Bool → List MainWindow
  | 0, _ => []
  | Nat.succ n, activated =>
      if activated then
        open_new_window cfg true :: run_activations cfg n true
      else
        run_activations cfg n true

/-- The window opened by the primary for its own intent (lines 273-278):
a compose window via `send_mailto` when `--mailto` was given, otherwise
the default window. -/
def startup_window (inv : Invocation) (env : Env) : MainWindow :=
  match inv.mailto with
  | some url => send_mailto (open_new_window env.cfg false) url
  | none => open_new_window env.cfg true

/-- The primary path after registration (lines 213-283): fatal conflict
of `--config` with `--test-config` (lines 229-233); otherwise the config
is loaded, the subsystems are initialized in `main_init_order`, the
startup window is opened, `app->run ()` delivers the self-activation
events, and `on_quit` tears down in `on_quit_teardown_order`. -/
def primary_run (inv : Invocation) (env : Env) : Outcome × List Event :=
  if inv.config.isSome && inv.test_config then
    (Outcome.exit 1, log_events inv env ++ [Event.registered_app])
  else
    (Outcome.exit 0,
      log_events inv env ++ [Event.registered_app, Event.config_loaded]
        ++ main_init_order.map Event.subsystem_init
        ++ [Event.window_opened (startup_window inv env)]
        ++ (run_activations env.cfg env.self_activations false).map
             Event.window_opened
        ++ on_quit_teardown_order.map Event.subsystem_teardown)

/-- `Astroid::main` (lines 70-284): help/unknown-option exit (lines
90-111), log setup, the `--new-config` branch, application registration
(line 192, no error handling: a failure is an uncaught exception), the
remote path, and the primary path. -/
def astroid_main (inv : Invocation) (env : Env) : Outcome × List Event :=
  if inv.unknown_option || inv.help then
    (Outcome.exit 0, [Event.printed_help])
  else if inv.new_config then
    new_config_run inv env
  else if env.registration_fails then
    (Outcome.uncaught_error, log_events inv env)
  else if env.is_remote then
    remote_run inv env
  else
    primary_run inv env

/-- Modelled from the spec: the process entry point that calls
`Astroid::main` is not under `src/` (only `astroid.cc` is); per the spec
("registration failure itself (host session unavailable) is fatal — the
process cannot proceed and must exit non-zero after reporting the
error", exit codes: "1 on: ... registration failure against the host
session"), a registration failure escaping `Astroid::main` is reported
and the process exits with status 1. -/
def astroid_process (inv : Invocation) (env : Env) : Outcome × List Event :=
  match astroid_main inv env with
  | (Outcome.uncaught_error, tr) => (Outcome.exit 1, tr ++ [Event.reported_error])
  | r => r

/-! ## Trace observations -/

/-- The windows opened along a trace, in order. -/
def trace_windows (tr : List Event) : List MainWindow :=
  tr.filterMap (fun e =>
    match e with
    | Event.window_opened w => some w
    | _ => none)

/-- The subsystem initializations along a trace, in order. -/
def trace_inits (tr : List Event) : List Subsystem :=
  tr.filterMap (fun e =>
    match e with
    | Event.subsystem_init s => some s
    | _ => none)

/-- Is this event a forward to an existing instance? -/
def is_forward_event : Event → Bool
  | Event.forwarded_action _ _ => true
  | Event.forwarded_activate => true
  | _ => false

/-- The forwards to an existing instance along a trace, in order. -/
def trace_forwards (tr : List Event) : List Event :=
  tr.filter is_forward_event

/-- Is this event part of the activation logic (registration, forwards,
window opening)? -/
def is_activation_event : Event → Bool
  | Event.registered_app => true
  | Event.forwarded_action _ _ => true
  | Event.forwarded_activate => true
  | Event.window_opened _ => true
  | _ => false

/-- The `--new-config` target file: the `--config` path when given,
otherwise the default config path (lines 141-157). -/
def new_config_target_exists (inv : Invocation) (env : Env) : Bool :=
  match inv.config with
  | some _ => env.config_file_exists
  | none => env.default_config_exists

/-! ## Concrete fixtures used by witnesses and counterexamples -/

/-- A configuration with no saved-search startup and no startup queries. -/
def cfg_empty : AstroidConfig := ⟨false, []⟩

/-- A flagless invocation (`astroid` with no options). -/
def inv_plain : Invocation :=
  ⟨false, false, none, false, false, none, false, none, false, false⟩

/-- `astroid --config x --test-config`. -/
def inv_config_test : Invocation :=
  ⟨false, false, some ("x".toList), false, true, none, false, none, false, false⟩

/-- `astroid --mailto foo@bar.com`. -/
def inv_mailto_plain : Invocation :=
  ⟨false, false, none, false, false, some ("foo@bar.com".toList), false, none,
   false, false⟩

/-- `astroid --new-config` with the default config file present. -/
def inv_new_config : Invocation :=
  ⟨false, false, none, true, false, none, false, none, false, false⟩

/-- An environment with a primary already running. -/
def env_remote : Env := ⟨true, false, false, false, true, 1, cfg_empty⟩

/-- A fresh-primary environment whose registration emits `n`
self-activation events. -/
def env_primary (n : Nat) : Env := ⟨false, false, false, false, true, n, cfg_empty⟩

/-- An environment where registration with the host session fails. -/
def env_reg_fail : Env := ⟨false, true, false, false, true, 1, cfg_empty⟩

/-- A fresh-primary environment in which the default config file
already exists. -/
def env_default_config_exists : Env :=
  ⟨false, false, false, true, true, 1, cfg_empty⟩

end AstroidModel

namespace AstroidModel

/-! ## Helper lemmas -/

/-- `send_mailto` always adds exactly the mode built from the extraction
step `send_mailto_to`. -/
theorem send_mailto_eq (mw : MainWindow) (url : List Char) :
    send_mailto mw url
      = add_mode mw ⟨ModeKind.EditMessageMode (send_mailto_to url), false⟩ := by
  unfold send_mailto send_mailto_to
  by_cases h : (uri_parse_scheme url).length > 0 <;> simp [h]

/-- Folding `add_mode` over the startup queries appends the mapped
thread-index modes. -/
theorem foldl_add_mode (l : List (List Char × List Char)) (mw : MainWindow) :
    l.foldl (fun w kv => add_mode w ⟨ModeKind.ThreadIndexMode kv.2 kv.1, true⟩) mw
      = ⟨mw.modes
          ++ l.map (fun kv => ⟨ModeKind.ThreadIndexMode kv.2 kv.1, true⟩),
         mw.active⟩ := by
  induction l generalizing mw with
  | nil => simp
  | cons kv rest ih =>
      rw [List.foldl_cons, ih]
      simp [add_mode]

/-- `open_new_window` without defaults is the empty window. -/
theorem open_new_window_false (cfg : AstroidConfig) :
    open_new_window cfg false = ⟨[], none⟩ := rfl

/-- Normal form of `open_new_window` with defaults. -/
theorem open_new_window_true (cfg : AstroidConfig) :
    open_new_window cfg true
      = ⟨(if cfg.saved_searches_show_on_startup
            then [⟨ModeKind.SavedSearchesMode, true⟩] else [])
          ++ cfg.startup_queries.map
               (fun kv => ⟨ModeKind.ThreadIndexMode kv.2 kv.1, true⟩),
         some 0⟩ := by
  obtain ⟨b, qs⟩ := cfg
  cases b
  · rw [show open_new_window ⟨false, qs⟩ true
        = set_active
            (qs.foldl
              (fun w kv => add_mode w ⟨ModeKind.ThreadIndexMode kv.2 kv.1, true⟩)
              ⟨[], none⟩) 0 from rfl,
      foldl_add_mode]
    simp [add_mode, set_active]
  · rw [show open_new_window ⟨true, qs⟩ true
        = set_active
            (qs.foldl
              (fun w kv => add_mode w ⟨ModeKind.ThreadIndexMode kv.2 kv.1, true⟩)
              (add_mode ⟨[], none⟩ ⟨ModeKind.SavedSearchesMode, true⟩)) 0 from rfl,
      foldl_add_mode]
    simp [add_mode, set_active]

/-- Number of windows opened by `n` activation events once the flag is
already set. -/
theorem run_activations_true_length (cfg : AstroidConfig) (n : Nat) :
    (run_activations cfg n true).length = n := by
  induction n with
  | zero => rfl
  | succ n ih => simp [run_activations, ih]

/-- Number of windows opened by `n` self-activation events starting with
the flag unset: the first event is swallowed. -/
theorem run_activations_false_length (cfg : AstroidConfig) (n : Nat) :
    (run_activations cfg n false).length = n - 1 := by
  cases n with
  | zero => rfl
  | succ n => simp [run_activations, run_activations_true_length]

/-- A log-sink setup phase is either empty or the single setup event. -/
theorem log_events_cases (inv : Invocation) (env : Env) :
    log_events inv env = [] ∨ log_events inv env = [Event.log_setup] := by
  unfold log_events
  cases inv.log_file with
  | none => exact Or.inl rfl
  | some f =>
      by_cases h : env.log_open_ok
      · exact Or.inr (by simp [h])
      · exact Or.inl (by simp [h])

/-- The log-setup phase opens no windows. -/
theorem trace_windows_log (inv : Invocation) (env : Env) :
    trace_windows (log_events inv env) = [] := by
  rcases log_events_cases inv env with h | h <;> simp [h, trace_windows]

/-- The log-setup phase initializes no subsystems. -/
theorem trace_inits_log (inv : Invocation) (env : Env) :
    trace_inits (log_events inv env) = [] := by
  rcases log_events_cases inv env with h | h <;> simp [h, trace_inits]

/-- The log-setup phase forwards nothing. -/
theorem trace_forwards_log (inv : Invocation) (env : Env) :
    trace_forwards (log_events inv env) = [] := by
  rcases log_events_cases inv env with h | h
  · simp [h, trace_forwards]
  · simp [h, trace_forwards, is_forward_event]

/-- The log-setup phase contains no activation-logic event. -/
theorem filter_activation_log (inv : Invocation) (env : Env) :
    (log_events inv env).filter is_activation_event = [] := by
  rcases log_events_cases inv env with h | h
  · simp [h]
  · simp [h, is_activation_event]

/-- The log-setup phase does not write a config file. -/
theorem wrote_config_not_mem_log (inv : Invocation) (env : Env) :
    Event.wrote_config ∉ log_events inv env := by
  rcases log_events_cases inv env with h | h <;> simp [h]

/-- `trace_windows` distributes over trace concatenation. -/
theorem trace_windows_append (a b : List Event) :
    trace_windows (a ++ b) = trace_windows a ++ trace_windows b := by
  simp [trace_windows]

/-- `trace_inits` distributes over trace concatenation. -/
theorem trace_inits_append (a b : List Event) :
    trace_inits (a ++ b) = trace_inits a ++ trace_inits b := by
  simp [trace_inits]

/-- `trace_forwards` distributes over trace concatenation. -/
theorem trace_forwards_append (a b : List Event) :
    trace_forwards (a ++ b) = trace_forwards a ++ trace_forwards b := by
  simp [trace_forwards]

/-- The bootstrap phase contributes exactly its subsystem list. -/
theorem trace_inits_map (l : List Subsystem) :
    trace_inits (l.map Event.subsystem_init) = l := by
  induction l with
  | nil => rfl
  | cons s rest ih => simp [trace_inits] at ih ⊢; exact ih

/-- The bootstrap phase opens no windows. -/
theorem trace_windows_map_init (l : List Subsystem) :
    trace_windows (l.map Event.subsystem_init) = [] := by
  induction l with
  | nil => rfl
  | cons s rest ih => simp [trace_windows] at ih ⊢

/-- The teardown phase opens no windows. -/
theorem trace_windows_map_teardown (l : List Subsystem) :
    trace_windows (l.map Event.subsystem_teardown) = [] := by
  induction l with
  | nil => rfl
  | cons s rest ih => simp [trace_windows] at ih ⊢

/-- The windows delivered by the activation events are exactly the
`run_activations` list. -/
theorem trace_windows_map_window (l : List MainWindow) :
    trace_windows (l.map Event.window_opened) = l := by
  induction l with
  | nil => rfl
  | cons w rest ih => simp [trace_windows] at ih ⊢; exact ih

/-- Every window opened by the activation handler is the default
window. -/
theorem run_activations_mem (cfg : AstroidConfig) (n : Nat) (b : Bool) :
    ∀ w ∈ run_activations cfg n b, w = open_new_window cfg true := by
  induction n generalizing b with
  | zero => intro w hw; cases hw
  | succ n ih =>
      intro w hw
      cases b with
      | false => exact ih true w hw
      | true =>
          rw [run_activations] at hw
          rw [if_pos rfl] at hw
          cases hw with
          | head => rfl
          | tail _ hmem => exact ih true w hmem

/-- The activation windows initialize no subsystems. -/
theorem trace_inits_map_window (l : List MainWindow) :
    trace_inits (l.map Event.window_opened) = [] := by
  induction l with
  | nil => rfl
  | cons w rest ih => simp [trace_inits] at ih ⊢

/-- The teardown phase initializes no subsystems. -/
theorem trace_inits_map_teardown (l : List Subsystem) :
    trace_inits (l.map Event.subsystem_teardown) = [] := by
  induction l with
  | nil => rfl
  | cons s rest ih => simp [trace_inits] at ih ⊢

set_option maxRecDepth 40000

/-! ## Claims -/

/-- C1: the code at `src/astroid.cc:411-433` does NOT return exactly the
substring after the scheme prefix: `Glib::uri_parse_scheme` returns the
scheme without the terminating `':'`, but `send_mailto` drops only
`scheme.length ()` characters, so for `raw = "mailto:" + addr` the
decoded recipient is `":" + addr`, not `addr` — while a scheme-free
`raw` is indeed returned unchanged and decoding never fails. -/
theorem c1_mailto_decoder_keeps_colon :
    send_mailto_to ("mailto:foo@bar.com".toList) = (":foo@bar.com".toList)
    ∧ send_mailto_to ("mailto:foo@bar.com".toList) ≠ ("foo@bar.com".toList)
    ∧ send_mailto_to ("mailto:foo@bar.com?subject=hi".toList)
        = (":foo@bar.com".toList)
    ∧ send_mailto_to ("foo@bar.com".toList) = ("foo@bar.com".toList) := by
  refine ⟨by decide, by decide, by decide, by decide⟩

/-- C2 counterexample: the teardown sequence of `on_quit`
(`actions`, then `saved_searches`, then `plugins`) is NOT the exact
reverse of the initialization order of the subsystems with explicit
teardown (which would be `actions`, then `plugins`, then
`saved_searches`). -/
theorem c2_teardown_not_reverse_of_init :
    on_quit_teardown_order
      ≠ (main_init_order.filter has_explicit_teardown).reverse := by
  decide

/-- C2 (amended): on the primary path the subsystems are initialized in
the fixed order date, utils, db, keybindings, saved-searches, accounts,
plugins, actions, poll; at shutdown the explicit teardown order is
action dispatcher, then saved-search registry, then plugin host — the
dispatcher (initialized last of the three) is torn down first, but the
saved-search registry is destructed before the plugin host, so the
sequence differs from the exact reverse of the init order by swapping
those two. -/
theorem c2_init_and_teardown_order (inv : Invocation) (env : Env)
    (hu : inv.unknown_option = false) (hh : inv.help = false)
    (hn : inv.new_config = false)
    (hr : env.registration_fails = false) (hrem : env.is_remote = false)
    (hc : (inv.config.isSome && inv.test_config) = false) :
    trace_inits (astroid_main inv env).2 = main_init_order
    ∧ main_init_order
        = [Subsystem.date, Subsystem.utils, Subsystem.db,
           Subsystem.keybindings, Subsystem.saved_searches,
           Subsystem.accounts, Subsystem.plugins, Subsystem.actions,
           Subsystem.poll]
    ∧ on_quit_teardown_order
        = [Subsystem.actions, Subsystem.saved_searches, Subsystem.plugins]
    ∧ (main_init_order.filter has_explicit_teardown).reverse
        = [Subsystem.actions, Subsystem.plugins, Subsystem.saved_searches] := by
  have hmain : astroid_main inv env = primary_run inv env := by
    simp [astroid_main, hu, hh, hn, hr, hrem]
  refine ⟨?_, by decide, by decide, by decide⟩
  rw [hmain]
  unfold primary_run
  rw [if_neg (by simp [hc])]
  dsimp only
  simp only [List.append_assoc, trace_inits_append, trace_inits_log,
             trace_inits_map, trace_inits_map_window, trace_inits_map_teardown]
  simp [trace_inits]

/-- C2 witness: the amended order statement at the flagless invocation
in a fresh-primary environment. -/
theorem c2_init_and_teardown_order_witness :
    ((inv_plain.unknown_option = false ∧ inv_plain.help = false
        ∧ inv_plain.new_config = false
        ∧ (env_primary 1).registration_fails = false
        ∧ (env_primary 1).is_remote = false
        ∧ (inv_plain.config.isSome && inv_plain.test_config) = false))
    ∧ trace_inits (astroid_main inv_plain (env_primary 1)).2
        = main_init_order := by
  refine ⟨by decide, ?_⟩
  exact (c2_init_and_teardown_order inv_plain (env_primary 1)
    rfl rfl rfl rfl rfl (by decide)).1

/-- C7: `open_new_window` with defaults populates the window with the
saved-search mode first (when configured to show on startup), then one
thread-index mode per startup query in declared order, all flagged
invincible, and activates index 0; with no startup entries the window
has zero modes. -/
theorem c7_open_default_window (cfg : AstroidConfig) :
    open_new_window cfg true
      = ⟨(if cfg.saved_searches_show_on_startup
            then [⟨ModeKind.SavedSearchesMode, true⟩] else [])
          ++ cfg.startup_queries.map
               (fun kv => ⟨ModeKind.ThreadIndexMode kv.2 kv.1, true⟩),
         some 0⟩
    ∧ (∀ m ∈ (open_new_window cfg true).modes, m.invincible = true)
    ∧ (cfg.saved_searches_show_on_startup = false →
        cfg.startup_queries = [] →
          (open_new_window cfg true).modes = []) := by
  refine ⟨open_new_window_true cfg, ?_, ?_⟩
  · intro m hm
    rw [open_new_window_true cfg] at hm
    simp only [List.mem_append] at hm
    rcases hm with hm | hm
    · by_cases h : cfg.saved_searches_show_on_startup
      · rw [if_pos h] at hm
        simp at hm
        rw [hm]
      · rw [if_neg h] at hm
        simp at hm
    · simp only [List.mem_map] at hm
      obtain ⟨kv, _, hkv⟩ := hm
      rw [← hkv]
  · intro h1 h2
    rw [open_new_window_true cfg]
    simp [h1, h2]

/-- C7 witness: with an empty configuration the default window opens
with zero modes, every mode (vacuously) invincible. -/
theorem c7_open_default_window_witness :
    cfg_empty.saved_searches_show_on_startup = false
    ∧ cfg_empty.startup_queries = []
    ∧ (open_new_window cfg_empty true).modes = [] := by
  refine ⟨by decide, by decide, ?_⟩
  exact (c7_open_default_window cfg_empty).2.2 rfl rfl

/-- C8: a ComposeTo window — produced by `send_mailto` on a
no-defaults window, whether on the local `--mailto` path
(`startup_window`) or on receipt of a forwarded mailto action
(`on_mailto_activate`) — contains exactly one mode, a compose view
addressed to the decoded recipient, and never receives the
saved-search / startup-query defaults, whatever the configuration. -/
theorem c8_compose_window_single_mode (cfg : AstroidConfig) (url : List Char) :
    (send_mailto (open_new_window cfg false) url).modes
      = [⟨ModeKind.EditMessageMode (send_mailto_to url), false⟩]
    ∧ on_mailto_activate cfg url = send_mailto (open_new_window cfg false) url
    ∧ (∀ (inv : Invocation) (env : Env),
        inv.mailto = some url → env.cfg = cfg →
          startup_window inv env = send_mailto (open_new_window cfg false) url) := by
  refine ⟨?_, rfl, ?_⟩
  · rw [send_mailto_eq, open_new_window_false]
    simp [add_mode]
  · intro inv env hm hcfg
    rw [startup_window, hm, hcfg]

/-- C8 witness: the compose window for `--mailto foo@bar.com` at the
empty configuration. -/
theorem c8_compose_window_single_mode_witness :
    inv_mailto_plain.mailto = some ("foo@bar.com".toList)
    ∧ env_remote.cfg = cfg_empty
    ∧ (send_mailto (open_new_window cfg_empty false) ("foo@bar.com".toList)).modes
        = [⟨ModeKind.EditMessageMode (send_mailto_to ("foo@bar.com".toList)),
            false⟩]
    ∧ startup_window inv_mailto_plain env_remote
        = send_mailto (open_new_window cfg_empty false) ("foo@bar.com".toList) := by
  refine ⟨rfl, rfl, ?_, ?_⟩
  · exact (c8_compose_window_single_mode cfg_empty ("foo@bar.com".toList)).1
  · exact (c8_compose_window_single_mode cfg_empty
      ("foo@bar.com".toList)).2.2 inv_mailto_plain env_remote rfl rfl

/-- C3 counterexample: when the registration step emits TWO
self-activation events, the flagless primary startup opens TWO default
windows — the Pending-Activation Flag swallows only the first event, so
the claim's "exactly one, regardless of one or more events" fails. -/
theorem c3_two_self_activations_open_two_windows :
    (trace_windows (astroid_main inv_plain (env_primary 2)).2).length = 2
    ∧ (trace_windows (astroid_main inv_plain (env_primary 2)).2).length ≠ 1 := by
  refine ⟨by decide, by decide⟩

/-- C3 (amended): on a flagless primary startup emitting `n ≥ 1`
self-activation events, exactly `n` default windows are opened: the
flag swallows exactly the first self-activation (so `n = 1`, the number
GTK actually emits, gives exactly one window and no duplicate), and each
further event opens one more window. -/
theorem c3_default_window_count (inv : Invocation) (env : Env)
    (hu : inv.unknown_option = false) (hh : inv.help = false)
    (hn : inv.new_config = false) (hm : inv.mailto = none)
    (hct : inv.config = none ∨ inv.test_config = false)
    (hr : env.registration_fails = false) (hrem : env.is_remote = false)
    (hsa : 1 ≤ env.self_activations) :
    (trace_windows (astroid_main inv env).2).length = env.self_activations
    ∧ ∀ w ∈ trace_windows (astroid_main inv env).2,
        w = open_new_window env.cfg true := by
  have hc : (inv.config.isSome && inv.test_config) = false := by
    rcases hct with h | h <;> simp [h]
  have hmain : astroid_main inv env = primary_run inv env := by
    simp [astroid_main, hu, hh, hn, hr, hrem]
  have htr : trace_windows (astroid_main inv env).2
      = startup_window inv env
          :: run_activations env.cfg env.self_activations false := by
    rw [hmain]
    unfold primary_run
    rw [if_neg (by simp [hc])]
    dsimp only
    simp only [List.append_assoc, trace_windows_append, trace_windows_log,
               trace_windows_map_init, trace_windows_map_window,
               trace_windows_map_teardown]
    simp [trace_windows]
  rw [htr]
  constructor
  · simp [run_activations_false_length]
    omega
  · intro w hw
    simp only [List.mem_cons] at hw
    rcases hw with hw | hw
    · rw [hw]
      unfold startup_window
      rw [hm]
    · exact run_activations_mem env.cfg env.self_activations false w hw

/-- C3 witness: the amended count at the flagless invocation with
exactly one self-activation event gives exactly one default window. -/
theorem c3_default_window_count_witness :
    (inv_plain.mailto = none ∧ 1 ≤ (env_primary 1).self_activations)
    ∧ (trace_windows (astroid_main inv_plain (env_primary 1)).2).length
        = (env_primary 1).self_activations := by
  refine ⟨⟨rfl, by decide⟩, ?_⟩
  exact (c3_default_window_count inv_plain (env_primary 1)
    rfl rfl rfl rfl (Or.inl rfl) rfl rfl (by decide)).1

/-- C4: a `--mailto` invocation finding a running primary forwards the
named "mailto" action with the raw, undecoded URL as its single payload,
opens no window itself and exits 0; the primary's receipt handler
(`on_mailto_activate`) opens one window containing a single compose
mode addressed to the decoded recipient. -/
theorem c4_secondary_mailto_forward (inv : Invocation) (env : Env)
    (raw : List Char)
    (hm : inv.mailto = some raw)
    (hu : inv.unknown_option = false) (hh : inv.help = false)
    (hn : inv.new_config = false)
    (hr : env.registration_fails = false) (hrem : env.is_remote = true) :
    (astroid_main inv env).1 = Outcome.exit 0
    ∧ trace_forwards (astroid_main inv env).2
        = [Event.forwarded_action action_mailto raw]
    ∧ trace_windows (astroid_main inv env).2 = []
    ∧ (on_mailto_activate env.cfg raw).modes
        = [⟨ModeKind.EditMessageMode (send_mailto_to raw), false⟩] := by
  have hmain : astroid_main inv env
      = (Outcome.exit 0,
          log_events inv env
            ++ [Event.registered_app,
                Event.forwarded_action action_mailto raw]) := by
    simp [astroid_main, hu, hh, hn, hr, hrem, remote_run, hm]
  refine ⟨by rw [hmain], ?_, ?_, ?_⟩
  · rw [hmain]
    dsimp only
    rw [trace_forwards_append, trace_forwards_log]
    simp [trace_forwards, is_forward_event]
  · rw [hmain]
    dsimp only
    rw [trace_windows_append, trace_windows_log]
    simp [trace_windows]
  · rw [show on_mailto_activate env.cfg raw
        = send_mailto (open_new_window env.cfg false) raw from rfl,
      send_mailto_eq, open_new_window_false]
    simp [add_mode]

/-- C4 witness: `--mailto foo@bar.com` against a running primary. -/
theorem c4_secondary_mailto_forward_witness :
    (inv_mailto_plain.mailto = some ("foo@bar.com".toList)
      ∧ env_remote.is_remote = true)
    ∧ (astroid_main inv_mailto_plain env_remote).1 = Outcome.exit 0
    ∧ trace_forwards (astroid_main inv_mailto_plain env_remote).2
        = [Event.forwarded_action action_mailto ("foo@bar.com".toList)]
    ∧ trace_windows (astroid_main inv_mailto_plain env_remote).2 = []
    ∧ (on_mailto_activate env_remote.cfg ("foo@bar.com".toList)).modes
        = [⟨ModeKind.EditMessageMode
              (send_mailto_to ("foo@bar.com".toList)), false⟩] := by
  refine ⟨⟨rfl, rfl⟩, ?_⟩
  exact c4_secondary_mailto_forward inv_mailto_plain env_remote
    ("foo@bar.com".toList) rfl rfl rfl rfl rfl rfl

/-- C5 counterexample: `--config x --test-config` while a primary is
already running forwards an activation and returns 0 — the conflict
check at lines 229-233 sits after the remote-instance check, so the
claimed universal exit status 1 fails. -/
theorem c5_conflict_remote_exits_zero :
    (astroid_main inv_config_test env_remote).1 = Outcome.exit 0
    ∧ (astroid_main inv_config_test env_remote).1 ≠ Outcome.exit 1
    ∧ trace_forwards (astroid_main inv_config_test env_remote).2
        = [Event.forwarded_activate] := by
  refine ⟨by decide, by decide, by decide⟩

/-- C5 (amended): a parsed invocation combining `--config` with
`--test-config` that does NOT find a running instance exits with status
1 and performs no subsystem bootstrap and opens no window; when an
instance is already running the process instead forwards and exits 0
before the conflict is ever detected. -/
theorem c5_conflict_primary_exits_one (inv : Invocation) (env : Env)
    (cpath : List Char)
    (hcfg : inv.config = some cpath) (ht : inv.test_config = true)
    (hu : inv.unknown_option = false) (hh : inv.help = false)
    (hr : env.registration_fails = false) (hrem : env.is_remote = false) :
    (astroid_main inv env).1 = Outcome.exit 1
    ∧ trace_inits (astroid_main inv env).2 = []
    ∧ trace_windows (astroid_main inv env).2 = [] := by
  cases hn : inv.new_config
  · have hmain : astroid_main inv env
        = (Outcome.exit 1, log_events inv env ++ [Event.registered_app]) := by
      simp [astroid_main, hu, hh, hn, hr, hrem, primary_run, hcfg, ht]
    rw [hmain]
    refine ⟨rfl, ?_, ?_⟩
    · dsimp only
      rw [trace_inits_append, trace_inits_log]
      simp [trace_inits]
    · dsimp only
      rw [trace_windows_append, trace_windows_log]
      simp [trace_windows]
  · have hmain : astroid_main inv env = (Outcome.exit 1, log_events inv env) := by
      simp [astroid_main, hu, hh, hn, new_config_run, ht]
    rw [hmain]
    exact ⟨rfl, trace_inits_log inv env, trace_windows_log inv env⟩

/-- C5 witness: the amended statement at `--config x --test-config` in a
fresh-primary environment. -/
theorem c5_conflict_primary_exits_one_witness :
    (inv_config_test.config = some ("x".toList)
      ∧ inv_config_test.test_config = true
      ∧ (env_primary 1).is_remote = false)
    ∧ (astroid_main inv_config_test (env_primary 1)).1 = Outcome.exit 1
    ∧ trace_inits (astroid_main inv_config_test (env_primary 1)).2 = []
    ∧ trace_windows (astroid_main inv_config_test (env_primary 1)).2 = [] := by
  refine ⟨⟨rfl, rfl, rfl⟩, ?_⟩
  exact c5_conflict_primary_exits_one inv_config_test (env_primary 1)
    ("x".toList) rfl rfl rfl rfl rfl rfl

/-- C6: when registration with the host session fails, `Astroid::main`
cannot proceed as primary — the failure escapes it (no bootstrap, no
window) — and the process (entry point modelled from the spec) reports
the error and exits with status 1. -/
theorem c6_registration_failure_fatal (inv : Invocation) (env : Env)
    (hf : env.registration_fails = true)
    (hu : inv.unknown_option = false) (hh : inv.help = false)
    (hn : inv.new_config = false) :
    (astroid_main inv env).1 = Outcome.uncaught_error
    ∧ (astroid_process inv env).1 = Outcome.exit 1
    ∧ Event.reported_error ∈ (astroid_process inv env).2
    ∧ trace_inits (astroid_process inv env).2 = []
    ∧ trace_windows (astroid_process inv env).2 = [] := by
  have hmain : astroid_main inv env
      = (Outcome.uncaught_error, log_events inv env) := by
    simp [astroid_main, hu, hh, hn, hf]
  have hproc : astroid_process inv env
      = (Outcome.exit 1, log_events inv env ++ [Event.reported_error]) := by
    rw [astroid_process, hmain]
  refine ⟨by rw [hmain], by rw [hproc], ?_, ?_, ?_⟩
  · rw [hproc]
    simp
  · rw [hproc]
    dsimp only
    rw [trace_inits_append, trace_inits_log]
    simp [trace_inits]
  · rw [hproc]
    dsimp only
    rw [trace_windows_append, trace_windows_log]
    simp [trace_windows]

/-- C6 witness: the flagless invocation in an environment where
registration fails. -/
theorem c6_registration_failure_fatal_witness :
    (env_reg_fail.registration_fails = true ∧ inv_plain.help = false)
    ∧ (astroid_main inv_plain env_reg_fail).1 = Outcome.uncaught_error
    ∧ (astroid_process inv_plain env_reg_fail).1 = Outcome.exit 1
    ∧ Event.reported_error ∈ (astroid_process inv_plain env_reg_fail).2
    ∧ trace_inits (astroid_process inv_plain env_reg_fail).2 = []
    ∧ trace_windows (astroid_process inv_plain env_reg_fail).2 = [] := by
  refine ⟨⟨rfl, rfl⟩, ?_⟩
  exact c6_registration_failure_fatal inv_plain env_reg_fail rfl rfl rfl rfl

/-- C9: a parsed `--new-config` invocation whose target config file
already exists exits with status 1 without writing the config file and
before any activation logic (registration, forwarding, window opening)
runs; combining `--new-config` with `--test-config` likewise exits 1
before any activation logic. -/
theorem c9_new_config_guard (inv : Invocation) (env : Env)
    (hn : inv.new_config = true)
    (hu : inv.unknown_option = false) (hh : inv.help = false)
    (h : inv.test_config = true ∨ new_config_target_exists inv env = true) :
    (astroid_main inv env).1 = Outcome.exit 1
    ∧ Event.wrote_config ∉ (astroid_main inv env).2
    ∧ (astroid_main inv env).2.filter is_activation_event = [] := by
  have hmain : astroid_main inv env = new_config_run inv env := by
    simp [astroid_main, hu, hh, hn]
  have hrun : new_config_run inv env = (Outcome.exit 1, log_events inv env) := by
    cases ht : inv.test_config
    · have hex : new_config_target_exists inv env = true := by
        rcases h with h | h
        · rw [ht] at h; cases h
        · exact h
      cases hcfg : inv.config with
      | some p =>
          have hce : env.config_file_exists = true := by
            unfold new_config_target_exists at hex
            rw [hcfg] at hex
            exact hex
          simp [new_config_run, ht, hcfg, hce]
      | none =>
          have hde : env.default_config_exists = true := by
            unfold new_config_target_exists at hex
            rw [hcfg] at hex
            exact hex
          simp [new_config_run, ht, hcfg, hde]
    · simp [new_config_run, ht]
  rw [hmain, hrun]
  exact ⟨rfl, wrote_config_not_mem_log inv env, filter_activation_log inv env⟩

/-- C9 witness: `--new-config` with the default config file already in
place. -/
theorem c9_new_config_guard_witness :
    (inv_new_config.new_config = true
      ∧ new_config_target_exists inv_new_config env_default_config_exists = true)
    ∧ (astroid_main inv_new_config env_default_config_exists).1 = Outcome.exit 1
    ∧ Event.wrote_config
        ∉ (astroid_main inv_new_config env_default_config_exists).2
    ∧ (astroid_main inv_new_config env_default_config_exists).2.filter
        is_activation_event = [] := by
  refine ⟨⟨rfl, rfl⟩, ?_⟩
  exact c9_new_config_guard inv_new_config env_default_config_exists
    rfl rfl rfl (Or.inr rfl)

/-- C10: an invocation with `--help` or any unknown option prints the
help text and exits 0, with no log-sink setup, no configuration
handling, no registration and no subsystem bootstrap. -/
theorem c10_help_prints_and_exits_zero (inv : Invocation) (env : Env)
    (h : inv.help = true ∨ inv.unknown_option = true) :
    astroid_main inv env = (Outcome.exit 0, [Event.printed_help])
    ∧ trace_inits (astroid_main inv env).2 = []
    ∧ trace_windows (astroid_main inv env).2 = []
    ∧ Event.log_setup ∉ (astroid_main inv env).2
    ∧ Event.config_loaded ∉ (astroid_main inv env).2
    ∧ Event.registered_app ∉ (astroid_main inv env).2 := by
  have hmain : astroid_main inv env = (Outcome.exit 0, [Event.printed_help]) := by
    rcases h with h | h <;> simp [astroid_main, h]
  rw [hmain]
  exact ⟨rfl, by simp [trace_inits], by simp [trace_windows],
         by simp, by simp, by simp⟩

/-- C10 witness: `astroid --help`. -/
theorem c10_help_prints_and_exits_zero_witness :
    ((⟨true, false, none, false, false, none, false, none, false, false⟩
        : Invocation).help = true)
    ∧ astroid_main
        ⟨true, false, none, false, false, none, false, none, false, false⟩
        (env_primary 1)
      = (Outcome.exit 0, [Event.printed_help]) := by
  refine ⟨rfl, ?_⟩
  exact (c10_help_prints_and_exits_zero
    ⟨true, false, none, false, false, none, false, none, false, false⟩
    (env_primary 1) (Or.inl rfl)).1

end AstroidModel
